import Mathlib

/-!
Verification of the counting-semaphore wrapper in
`src/libtiutils/Semaphore.cpp` (class `android::Semaphore`), shallowly
embedded in Lean.

The wrapper owns one `sem_t*` member (`mSemaphore`, NULL until `Create`)
and delegates to the POSIX calls `sem_init`, `sem_wait`, `sem_post`,
`sem_getvalue`, `sem_timedwait`, translating their integer results through
`ErrorUtils::posixToAndroidError`.

Modelling choices:
* `mSemaphore` becomes `Option NativeSem`; `none` is the NULL pointer and
  `NativeSem` records whether `sem_init` succeeded on the pointed-to memory
  together with the semaphore's current value.
* Outcomes of native calls that the source merely forwards or branches on
  (`malloc` success, the return value of `sem_init` and of `sem_timedwait`)
  are explicit parameters of the corresponding operation.
* Each operation additionally returns the list of native semaphore calls it
  performed, with their arguments, so that statements such as "no native
  operation is invoked" or "this timespec is passed to the bounded wait"
  are directly expressible.
* The blocking operations are modelled for single-threaded executions:
  `Option.none` as the overall result marks a call that blocks forever
  (or hits undefined behaviour on never-initialized memory).
* C `int` arithmetic in `WaitTimeout` is modelled exactly over `Int` with
  truncating division (`Int.tdiv`): for every 32-bit input no intermediate
  value of the source expression leaves the 32-bit range, so no wrap-around
  modelling is needed.
-/

/-- Android `status_t` success code `NO_ERROR = 0`. -/
def NO_ERROR : Int := 0

/-- Android `status_t` code `NO_MEMORY = -ENOMEM = -12`. -/
def NO_MEMORY : Int := -12

/-- Android `status_t` code `BAD_VALUE = -EINVAL = -22`. -/
def BAD_VALUE : Int := -22

/-- Android `status_t` code `UNKNOWN_ERROR = INT32_MIN`. -/
def UNKNOWN_ERROR : Int := -2147483648

/-- Modelled from the spec: `ErrorUtils::posixToAndroidError` (its source,
`ErrorUtils.cpp`, is not part of this snapshot; only its call sites are).
Per the spec it is "a pure function mapping a native failure code to one of
this system's ErrorKind values": 0 (native success) maps to `NO_ERROR` and
any nonzero failure code maps to a nonzero error; the theorems below rely
only on that distinction, never on the exact choice for a failure code. -/
def posixToAndroidError (e : Int) : Int :=
  if e = 0 then NO_ERROR else UNKNOWN_ERROR

/-- Linux `SEM_VALUE_MAX`. -/
def SEM_VALUE_MAX : Int := 2147483647

/-- Model of one `sem_t` cell: whether `sem_init` succeeded on this memory,
and the semaphore's current value (meaningful only when initialized). -/
structure NativeSem where
  initialized : Bool
  value : Int
deriving DecidableEq, Repr

/-- The wrapper object: field `mSemaphore` is the `sem_t*` member of class
`Semaphore`; `none` is the NULL pointer. -/
structure SemaphoreObj where
  mSemaphore : Option NativeSem
deriving DecidableEq, Repr

/-- A native semaphore call the wrapper can issue, with its arguments. -/
inductive NativeCall where
  | semInit (count : Int)
  | semWait
  | semPost
  | semGetValue
  | semTimedWait (tv_sec tv_nsec : Int)
deriving DecidableEq, Repr

/-- `Semaphore::Semaphore()`: the constructor sets `mSemaphore = NULL`. -/
def Semaphore.construct : SemaphoreObj := { mSemaphore := none }

/-- `Semaphore::Create(int count)`.  The source: reject `count < 0` with
`BAD_VALUE`; assign `mSemaphore = malloc(...)`; on NULL return `NO_MEMORY`;
otherwise return `posixToAndroidError(sem_init(mSemaphore, 0, count))` with
no further branching.  `mallocOk` is whether `malloc` returned non-NULL and
`initResult` is the value `sem_init` returned (0 on success); the source
only branches on the former and forwards the latter. -/
def Semaphore.Create (s : SemaphoreObj) (count : Int) (mallocOk : Bool)
    (initResult : Int) : SemaphoreObj × Int × List NativeCall :=
  if count < 0 then (s, BAD_VALUE, [])
  else if !mallocOk then ({ mSemaphore := none }, NO_MEMORY, [])
  else if initResult = 0 then
    ({ mSemaphore := some { initialized := true, value := count } },
      posixToAndroidError 0, [NativeCall.semInit count])
  else
    ({ mSemaphore := some { initialized := false, value := 0 } },
      posixToAndroidError initResult, [NativeCall.semInit count])

/-- `sem_wait` in a single-threaded run: when the cell is initialized and
its value is positive it decrements and returns 0; `none` models a call
that blocks forever (value 0 with no other thread left to post) or
undefined behaviour on never-initialized memory. -/
def semWaitNative (ns : NativeSem) : Option (NativeSem × Int) :=
  if ns.initialized ∧ 0 < ns.value then
    some ({ ns with value := ns.value - 1 }, 0)
  else none

/-- `sem_post`: increments and returns 0, or returns -1 (`EOVERFLOW`) at
`SEM_VALUE_MAX`; `none` models undefined behaviour on never-initialized
memory. -/
def semPostNative (ns : NativeSem) : Option (NativeSem × Int) :=
  if ns.initialized then
    if ns.value < SEM_VALUE_MAX then
      some ({ ns with value := ns.value + 1 }, 0)
    else some (ns, -1)
  else none

/-- `Semaphore::Wait()`: `BAD_VALUE` immediately when `mSemaphore` is NULL,
otherwise `posixToAndroidError(sem_wait(mSemaphore))`. -/
def Semaphore.Wait (s : SemaphoreObj) :
    Option (SemaphoreObj × Int × List NativeCall) :=
  match s.mSemaphore with
  | none => some (s, BAD_VALUE, [])
  | some ns =>
    match semWaitNative ns with
    | none => none
    | some (ns2, r) =>
      some ({ mSemaphore := some ns2 }, posixToAndroidError r,
        [NativeCall.semWait])

/-- `Semaphore::Signal()`: `BAD_VALUE` immediately when `mSemaphore` is
NULL, otherwise `posixToAndroidError(sem_post(mSemaphore))`. -/
def Semaphore.Signal (s : SemaphoreObj) :
    Option (SemaphoreObj × Int × List NativeCall) :=
  match s.mSemaphore with
  | none => some (s, BAD_VALUE, [])
  | some ns =>
    match semPostNative ns with
    | none => none
    | some (ns2, r) =>
      some ({ mSemaphore := some ns2 }, posixToAndroidError r,
        [NativeCall.semPost])

/-- `Semaphore::Count()`: returns `BAD_VALUE` when `mSemaphore` is NULL,
otherwise the value `sem_getvalue` reads live from the native cell.  The
sentinel shares the plain `int` return type with legitimate counts. -/
def Semaphore.Count (s : SemaphoreObj) : Int × List NativeCall :=
  match s.mSemaphore with
  | none => (BAD_VALUE, [])
  | some ns => (ns.value, [NativeCall.semGetValue])

/-- The `timespec` built by `Semaphore::WaitTimeout`:
`tv_sec  = timeoutMicroSecs / 1000000` (C `int` division truncates toward
zero, hence `Int.tdiv`) and
`tv_nsec = (timeoutMicroSecs - tv_sec*1000000) * 1000`. -/
def waitTimeoutTimeSpec (timeoutMicroSecs : Int) : Int × Int :=
  let tv_sec := Int.tdiv timeoutMicroSecs 1000000
  (tv_sec, (timeoutMicroSecs - tv_sec * 1000000) * 1000)

/-- `Semaphore::WaitTimeout(int timeoutMicroSecs)`: `BAD_VALUE` immediately
when `mSemaphore` is NULL; otherwise it builds `waitTimeoutTimeSpec` once
and returns `posixToAndroidError(sem_timedwait(mSemaphore, &timeSpec))`.
`nativeResult` is the value `sem_timedwait` returns (0 when the semaphore
was acquired, in which case the native value is decremented); the source
only forwards it.  Note the source reads no clock: the timespec passed to
`sem_timedwait` is exactly the converted relative duration. -/
def Semaphore.WaitTimeout (s : SemaphoreObj)
    (timeoutMicroSecs nativeResult : Int) :
    SemaphoreObj × Int × List NativeCall :=
  match s.mSemaphore with
  | none => (s, BAD_VALUE, [])
  | some ns =>
    let ts := waitTimeoutTimeSpec timeoutMicroSecs
    let ns2 :=
      if nativeResult = 0 then { ns with value := ns.value - 1 } else ns
    ({ mSemaphore := some ns2 }, posixToAndroidError nativeResult,
      [NativeCall.semTimedWait ts.1 ts.2])

/-- Modelled from the spec: the deadline the spec requires `WaitTimeout` to
pass to the native bounded wait, namely "an absolute seconds + nanoseconds
timespec derived from the current clock plus the relative duration".
`nowSec`/`nowNsec` are the current clock reading at call entry. -/
def specAbsoluteDeadline (nowSec nowNsec timeoutMicroSecs : Int) :
    Int × Int :=
  let total := nowSec * 1000000000 + nowNsec + timeoutMicroSecs * 1000
  (Int.ediv total 1000000000, Int.emod total 1000000000)

/-- One call of the wrapper's API, carrying the native-layer outcomes the
source depends on. -/
inductive Op where
  | create (count : Int) (mallocOk : Bool) (initResult : Int)
  | wait
  | signal
  | count
  | waitTimeout (timeoutMicroSecs nativeResult : Int)
deriving DecidableEq, Repr

/-- Run one API call for its state effect; `none` marks a call that blocks
forever in the single-threaded model. -/
def stepOp (s : SemaphoreObj) : Op → Option SemaphoreObj
  | Op.create c m i => some (Semaphore.Create s c m i).1
  | Op.wait => (Semaphore.Wait s).map Prod.fst
  | Op.signal => (Semaphore.Signal s).map Prod.fst
  | Op.count => some s
  | Op.waitTimeout t r => some (Semaphore.WaitTimeout s t r).1

/-- Run a sequence of API calls from a state. -/
def runOps (s : SemaphoreObj) : List Op → Option SemaphoreObj
  | [] => some s
  | op :: rest => (stepOp s op).bind (fun s2 => runOps s2 rest)

/-- The handle invariant claimed by the spec: the handle is wholly absent,
or present and successfully initialized. -/
def handleWhole (s : SemaphoreObj) : Bool :=
  match s.mSemaphore with
  | none => true
  | some ns => ns.initialized

/-- C7: sequential round-trip.  From a fresh object, `Create(1)` succeeds
with the native value 1; the first `Wait` succeeds and the value becomes 0;
`Signal` succeeds and the value becomes 1; the second `Wait` succeeds and
the value returns to 0. -/
theorem sequential_round_trip :
    Semaphore.Create Semaphore.construct 1 true 0 =
      ({ mSemaphore := some { initialized := true, value := 1 } }, NO_ERROR,
        [NativeCall.semInit 1]) ∧
    Semaphore.Wait { mSemaphore := some { initialized := true, value := 1 } } =
      some ({ mSemaphore := some { initialized := true, value := 0 } },
        NO_ERROR, [NativeCall.semWait]) ∧
    Semaphore.Signal { mSemaphore := some { initialized := true, value := 0 } } =
      some ({ mSemaphore := some { initialized := true, value := 1 } },
        NO_ERROR, [NativeCall.semPost]) ∧
    Semaphore.Wait { mSemaphore := some { initialized := true, value := 1 } } =
      some ({ mSemaphore := some { initialized := true, value := 0 } },
        NO_ERROR, [NativeCall.semWait]) := by
  decide

/-- C1: evidence of the timeout bug.  On a ready semaphore,
`WaitTimeout(1000000)` passes the relative conversion `(tv_sec 1, tv_nsec 0)`
to `sem_timedwait` — the source reads no clock — whereas the spec's absolute
deadline at a current clock of 1700000000 s is `(1700000001, 0)`.
`sem_timedwait` interprets its argument as an absolute time, so the passed
deadline lies in 1970 and the wait expires immediately. -/
theorem waitTimeout_passes_relative_not_absolute :
    (Semaphore.WaitTimeout
        { mSemaphore := some { initialized := true, value := 0 } }
        1000000 (-1)).2.2 = [NativeCall.semTimedWait 1 0] ∧
    specAbsoluteDeadline 1700000000 0 1000000 = (1700000001, 0) ∧
    NativeCall.semTimedWait 1 0 ≠ NativeCall.semTimedWait 1700000001 0 := by
  refine ⟨rfl, by decide, by decide⟩

/-- C2: evidence of the cleanup bug.  With `malloc` succeeding and
`sem_init` failing (returning -1), `Create(0)` does return the translated
error, but leaves `mSemaphore` pointing at the failed, never-freed cell
instead of resetting it to NULL. -/
theorem create_initFailure_keeps_failed_handle :
    Semaphore.Create Semaphore.construct 0 true (-1) =
      ({ mSemaphore := some { initialized := false, value := 0 } },
        posixToAndroidError (-1), [NativeCall.semInit 0]) ∧
    ({ mSemaphore := some { initialized := false, value := 0 } } :
        SemaphoreObj).mSemaphore ≠ none := by
  refine ⟨rfl, by decide⟩

/-- C3: evidence that the handle invariant is violated on a reachable
state.  From construction, the single call `Create(0)` with `sem_init`
failing reaches a state whose handle is present but whose native
initialization did not succeed. -/
theorem reachable_state_violates_handle_invariant :
    runOps Semaphore.construct [Op.create 0 true (-1)] =
      some { mSemaphore := some { initialized := false, value := 0 } } ∧
    handleWhole { mSemaphore := some { initialized := false, value := 0 } } =
      false := by
  refine ⟨rfl, rfl⟩

/-- C4, counterexample to the claim as stated.  The claim quantifies over
every state with "no successfully created handle".  The state with the
handle present but `sem_init` failed is such a state, it is reachable from
construction (first two conjuncts), and there `WaitTimeout` passes the
source's NULL guard: it invokes `sem_timedwait` on the never-initialized
cell (nonempty native trace) and returns the translated native result,
not `BAD_VALUE`. -/
theorem notReady_failedInit_invokes_native :
    runOps Semaphore.construct [Op.create 0 true (-1)] =
      some { mSemaphore := some { initialized := false, value := 0 } } ∧
    handleWhole { mSemaphore := some { initialized := false, value := 0 } } =
      false ∧
    (Semaphore.WaitTimeout
        { mSemaphore := some { initialized := false, value := 0 } }
        100 (-1)).2.2 ≠ [] ∧
    (Semaphore.WaitTimeout
        { mSemaphore := some { initialized := false, value := 0 } }
        100 (-1)).2.1 ≠ BAD_VALUE := by
  decide

/-- C4, amended: on an object whose handle pointer is NULL (the state the
source's guard actually tests), `Wait`, `Signal` and `WaitTimeout` each
return `BAD_VALUE` (the spec's `InvalidState`) immediately, leave the
state unchanged, and issue no native semaphore call.  (In the reachable
non-ready state whose handle is non-NULL with failed initialization, the
guard passes and the native call is made instead.) -/
theorem notReady_ops_return_invalidState (s : SemaphoreObj)
    (h : s.mSemaphore = none) (t r : Int) :
    Semaphore.Wait s = some (s, BAD_VALUE, []) ∧
    Semaphore.Signal s = some (s, BAD_VALUE, []) ∧
    Semaphore.WaitTimeout s t r = (s, BAD_VALUE, []) := by
  refine ⟨?_, ?_, ?_⟩ <;>
    simp [Semaphore.Wait, Semaphore.Signal, Semaphore.WaitTimeout, h]

/-- Witness for C4 at the freshly constructed object and timeout 500. -/
theorem notReady_ops_return_invalidState_witness :
    Semaphore.Wait Semaphore.construct =
      some (Semaphore.construct, BAD_VALUE, []) ∧
    Semaphore.Signal Semaphore.construct =
      some (Semaphore.construct, BAD_VALUE, []) ∧
    Semaphore.WaitTimeout Semaphore.construct 500 0 =
      (Semaphore.construct, BAD_VALUE, []) :=
  notReady_ops_return_invalidState Semaphore.construct rfl 500 0

/-- C5: `Create` with a negative count returns `BAD_VALUE` (the spec's
`InvalidArgument`) with no native call and with the uninitialized object
left unchanged — whatever `malloc` or `sem_init` would have done — and
`Count` on the resulting object returns the `BAD_VALUE` sentinel with no
native call. -/
theorem create_negative_rejected (count : Int) (h : count < 0)
    (mallocOk : Bool) (initResult : Int) :
    Semaphore.Create Semaphore.construct count mallocOk initResult =
      (Semaphore.construct, BAD_VALUE, []) ∧
    Semaphore.Count
        (Semaphore.Create Semaphore.construct count mallocOk initResult).1 =
      (BAD_VALUE, []) := by
  constructor
  · simp [Semaphore.Create, h]
  · simp [Semaphore.Create, h, Semaphore.construct, Semaphore.Count]

/-- Witness for C5 at `Create(-1)`. -/
theorem create_negative_rejected_witness :
    Semaphore.Create Semaphore.construct (-1) true 0 =
      (Semaphore.construct, BAD_VALUE, []) ∧
    Semaphore.Count
        (Semaphore.Create Semaphore.construct (-1) true 0).1 =
      (BAD_VALUE, []) :=
  create_negative_rejected (-1) (by decide) true 0

/-- C6: a successful `Create(N)` (here: `N ≥ 0`, `malloc` non-NULL,
`sem_init` returning 0) on a fresh object followed immediately by `Count`
returns `N`, read live by `sem_getvalue`. -/
theorem create_then_count (N : Int) (h : 0 ≤ N) :
    Semaphore.Count (Semaphore.Create Semaphore.construct N true 0).1 =
      (N, [NativeCall.semGetValue]) := by
  have h2 : ¬ N < 0 := not_lt.mpr h
  simp [Semaphore.Create, h2, Semaphore.Count]

/-- Witness for C6 at `N = 3`. -/
theorem create_then_count_witness :
    Semaphore.Count (Semaphore.Create Semaphore.construct 3 true 0).1 =
      (3, [NativeCall.semGetValue]) :=
  create_then_count 3 (by decide)

/-- C8, counterexample to the claim as stated.  In the reachable non-ready
state whose handle is present but never successfully initialized (first
two conjuncts), `Count` does not return the `BAD_VALUE` sentinel: the
source's NULL guard passes and it performs the live `sem_getvalue` read on
the uninitialized cell, returning whatever that memory holds. -/
theorem count_failedInit_reads_live :
    runOps Semaphore.construct [Op.create 0 true (-1)] =
      some { mSemaphore := some { initialized := false, value := 0 } } ∧
    handleWhole { mSemaphore := some { initialized := false, value := 0 } } =
      false ∧
    (Semaphore.Count
        { mSemaphore := some { initialized := false, value := 0 } }).1 ≠
      BAD_VALUE ∧
    (Semaphore.Count
        { mSemaphore := some { initialized := false, value := 0 } }).2 =
      [NativeCall.semGetValue] := by
  decide

/-- C8, amended: `Count` on an object with a NULL handle returns the
`BAD_VALUE` sentinel — an `Int`, the same plain type as a legitimate
count — and on an object with a non-NULL handle (in particular every ready
object) it returns the native cell's instantaneous value, queried by
`sem_getvalue`; the wrapper keeps no cached copy (its only field is the
handle itself).  The non-NULL, failed-initialization state gets the live
read, not the sentinel. -/
theorem count_sentinel_or_live (s : SemaphoreObj) :
    (s.mSemaphore = none → Semaphore.Count s = (BAD_VALUE, [])) ∧
    (∀ ns, s.mSemaphore = some ns →
      Semaphore.Count s = (ns.value, [NativeCall.semGetValue])) := by
  constructor
  · intro h
    simp [Semaphore.Count, h]
  · intro ns h
    simp [Semaphore.Count, h]

/-- Witness for C8 at the fresh object and at a ready cell of value 5. -/
theorem count_sentinel_or_live_witness :
    Semaphore.Count Semaphore.construct = (BAD_VALUE, []) ∧
    Semaphore.Count { mSemaphore := some { initialized := true, value := 5 } } =
      (5, [NativeCall.semGetValue]) :=
  ⟨(count_sentinel_or_live Semaphore.construct).1 rfl,
    (count_sentinel_or_live
        { mSemaphore := some { initialized := true, value := 5 } }).2
      { initialized := true, value := 5 } rfl⟩

/-- C9: for every integer `t` passed to `WaitTimeout` on a ready
semaphore, the constructed timespec has `tv_sec = Int.tdiv t 1000000`
(C truncating division) and `tv_nsec = (t - tv_sec*1000000)*1000`, so
`tv_sec*1000000000 + tv_nsec = t*1000` exactly; and no argument check
rejects negative `t`: the timespec is passed to `sem_timedwait` as built
and only the native result is translated. -/
theorem waitTimeout_timespec_exact (t r : Int) (ns : NativeSem) :
    (waitTimeoutTimeSpec t).1 = Int.tdiv t 1000000 ∧
    (waitTimeoutTimeSpec t).2 =
      (t - Int.tdiv t 1000000 * 1000000) * 1000 ∧
    (waitTimeoutTimeSpec t).1 * 1000000000 + (waitTimeoutTimeSpec t).2 =
      t * 1000 ∧
    (Semaphore.WaitTimeout { mSemaphore := some ns } t r).2.1 =
      posixToAndroidError r ∧
    (Semaphore.WaitTimeout { mSemaphore := some ns } t r).2.2 =
      [NativeCall.semTimedWait (waitTimeoutTimeSpec t).1
        (waitTimeoutTimeSpec t).2] := by
  refine ⟨rfl, rfl, ?_, rfl, rfl⟩
  show Int.tdiv t 1000000 * 1000000000 +
      (t - Int.tdiv t 1000000 * 1000000) * 1000 = t * 1000
  ring
